import Mathlib

/-!
Verification of the `kafkareader` / `kafkalib` consumer subsystem of
cdpzyafk/go-utils.

The Go sources are shallowly embedded:
* `time.Duration` values are `Int` nanoseconds (Go's `time.Duration` is an
  `int64` count of nanoseconds).
* Kafka message offsets are `Int` (Go `int64`).
* The external kafka-go client library is the environment: partition lookup
  and connection creation/seek outcomes are supplied as function parameters.
* Logging has no observable effect on the values the claims are about; log
  calls are dropped (for the recovery loop, where the claim mentions the
  sequencing of effects, they are kept as explicit trace actions).
-/

/-- Go constant `time.Millisecond` in nanoseconds. -/
def millisecondNs : Int := 1000000

/-- Go constant `time.Second` in nanoseconds. -/
def secondNs : Int := 1000000000

/-- kafka-go sentinel `kafka.LastOffset`: seek target meaning the broker's
newest offset (the position just past the last message currently present). -/
def kafkaLastOffset : Int := -1

/-- kafka-go sentinel `kafka.FirstOffset` (oldest available offset). -/
def kafkaFirstOffset : Int := -2

/-- Subset of `kafka.Message` read by this repository: the code inspects only
`msg.Offset` and hands the whole message to the handler.  Key and value bytes
are kept as strings for the payload. -/
structure Message where
  partition : Int
  offset : Int
  key : String
  value : String
deriving DecidableEq, Repr

/-- Subset of `kafka.Partition` read by this repository: the code uses only
`partition.ID` (plus the topic it was resolved for). -/
structure Partition where
  topic : String
  id : Int
deriving DecidableEq, Repr

/-- One iteration's outcome of the blocking `pr.reader.FetchMessage(ctx)` call
in `PartitionReader.Start`: either a fetched message or a fetch error. -/
inductive FetchEvent where
  | msg (m : Message)
  | failure (errMsg : String)
deriving DecidableEq, Repr

/-- The fetch/dedup/deliver loop of `PartitionReader.Start` (part_000 lines
24-36), run over a finite prefix of fetch outcomes.  State is the local
`maxOffset` variable; the result is the final `maxOffset` together with the
list of messages passed to `pr.parent.handleEvent`, in order.  A fetch
failure triggers `recover()` and the loop then continues with the SAME
`maxOffset` (the variable is local to `Start` and survives reconnection);
which messages the replacement connection yields is the environment's choice,
i.e. the remaining events. -/
def workerRun : Int → List FetchEvent → Int × List Message
  | maxOffset, [] => (maxOffset, [])
  | maxOffset, FetchEvent.msg m :: rest =>
      if m.offset ≤ maxOffset then
        workerRun maxOffset rest
      else
        let r := workerRun m.offset rest
        (r.1, m :: r.2)
  | maxOffset, FetchEvent.failure _ :: rest => workerRun maxOffset rest

/-- `PartitionReader.Start` initializes `maxOffset := int64(0)` (part_000
line 22) and then runs the fetch loop. -/
def partitionReaderStart (events : List FetchEvent) : Int × List Message :=
  workerRun 0 events

/-- Errors of the consumer subsystem.  `noBrokers`, `noTopic`, `noHandler`
are `ErrNoBrokers`/`ErrNoTopic`/`ErrNoHandler` (part_000 errors block);
`nonePartitionFound` is `kafkalib.ErrNonePartionFound` (part_002 line 40);
`external` wraps an error string produced by the kafka-go client library
(e.g. a `SetOffset` failure). -/
inductive KafkaErr where
  | noBrokers
  | noTopic
  | noHandler
  | nonePartitionFound
  | external (msg : String)
deriving DecidableEq, Repr

/-- Error strings, as written in the source's `errors.New` calls. -/
def KafkaErr.message : KafkaErr → String
  | KafkaErr.noBrokers => "no brokers"
  | KafkaErr.noTopic => "no topic"
  | KafkaErr.noHandler => "no handler"
  | KafkaErr.nonePartitionFound => "none partition found"
  | KafkaErr.external s => s

/-- Configuration errors are exactly the three validation errors raised at
the top of `CreateReader`. -/
def KafkaErr.isConfigErr : KafkaErr → Bool
  | KafkaErr.noBrokers => true
  | KafkaErr.noTopic => true
  | KafkaErr.noHandler => true
  | _ => false

/-- Environment for `kafka.LookupPartitions(ctx, network, addr, topic)`: the
broker's answer given network, address, topic, and the context timeout in
nanoseconds. -/
def LookupEnv : Type := String → String → String → Int → Except String (List Partition)

/-- `kafkalib.lookupPartitions` (part_002 lines 58-62): queries one address
over "tcp" with a context timeout of `3*time.Second`. -/
def lookupPartitions (env : LookupEnv) (addr topic : String) :
    Except String (List Partition) :=
  env "tcp" addr topic (3 * secondNs)

/-- `kafkalib.LookupPartitions` (part_002 lines 44-56): tries the broker
addresses in order, returning the first successful partition list; if every
address fails, returns `ErrNonePartionFound` (the per-address errors are only
logged, here dropped).  The second component instruments the model with the
list of addresses actually queried, in order. -/
def LookupPartitions (env : LookupEnv) (brokers : List String) (topic : String) :
    Except KafkaErr (List Partition) × List String :=
  match brokers with
  | [] => (Except.error KafkaErr.nonePartitionFound, [])
  | addr :: rest =>
      match lookupPartitions env addr topic with
      | Except.ok partitions => (Except.ok partitions, [addr])
      | Except.error _ =>
          let r := LookupPartitions env rest topic
          (r.1, addr :: r.2)

/-- `kafkareader.Config` (config.go): the handler is a function value that
may be nil; its type is abstracted as `H` and nil-ness as `Option`. -/
structure Config (H : Type) where
  name : String
  brokers : List String
  topic : String
  minBytes : Int
  maxBytes : Int
  readBackoffMin : Int
  handler : Option H
deriving DecidableEq

/-- Go constant `MINBYTES = 512` (config.go). -/
def MINBYTES : Int := 512

/-- Go constant `MAXBYTES = 1024 * 1024 * 4` (config.go). -/
def MAXBYTES : Int := 1024 * 1024 * 4

/-- Go constant `READBACKOFFMIN = time.Millisecond * 100` (config.go). -/
def READBACKOFFMIN : Int := millisecondNs * 100

/-- The defaulting/clamping block of `CreateReader` (reader.go lines 40-51),
which mutates the caller's `Config` in place; the model returns the mutated
value. -/
def applyDefaults {H : Type} (cfg : Config H) : Config H :=
  let cfg := if cfg.minBytes ≤ 0 then { cfg with minBytes := MINBYTES } else cfg
  let cfg := if cfg.maxBytes ≤ 0 then { cfg with maxBytes := MAXBYTES } else cfg
  let cfg :=
    if cfg.maxBytes < cfg.minBytes then { cfg with maxBytes := cfg.minBytes + 64 }
    else cfg
  if cfg.readBackoffMin ≤ READBACKOFFMIN then { cfg with readBackoffMin := READBACKOFFMIN }
  else cfg

/-- The `kafka.ReaderConfig` fields set by `PartitionReader.createReader`. -/
structure ReaderConfig where
  brokers : List String
  topic : String
  partition : Int
  minBytes : Int
  maxBytes : Int
  readBackoffMin : Int
deriving DecidableEq, Repr

/-- A kafka.Reader connection as produced by `PartitionReader.createReader`:
its configuration and the offset sentinel it was seeked to via `SetOffset`. -/
structure KafkaConn where
  config : ReaderConfig
  seekedTo : Int
deriving DecidableEq, Repr

/-- Environment for connection creation: the outcome of
`kafka.NewReader(...).SetOffset(kafka.LastOffset)` for a given partition ID. -/
def SeekEnv : Type := Int → Except String Unit

/-- `PartitionReader.createReader` (part_000 lines 58-69): builds a reader
from the parent's brokers/topic/byte-thresholds/backoff and the partition ID,
then seeks it to `kafka.LastOffset` (the newest offset). -/
def createReader (env : SeekEnv) (brokers : List String) (topic : String)
    (minBytes maxBytes readBackoffMin partitionID : Int) :
    Except String KafkaConn :=
  match env partitionID with
  | Except.ok _ =>
      Except.ok
        { config :=
            { brokers := brokers, topic := topic, partition := partitionID,
              minBytes := minBytes, maxBytes := maxBytes,
              readBackoffMin := readBackoffMin },
          seekedTo := kafkaLastOffset }
  | Except.error s => Except.error s

/-- A constructed partition worker: its partition and its live connection. -/
structure PartitionReaderSt where
  partition : Partition
  conn : KafkaConn
deriving DecidableEq, Repr

/-- `NewPartitionReader` (part_000 lines 71-82): builds the worker and its
initial connection; the construction error is the `createReader` error. -/
def NewPartitionReader (env : SeekEnv) (brokers : List String) (topic : String)
    (minBytes maxBytes readBackoffMin : Int) (p : Partition) :
    Except KafkaErr PartitionReaderSt :=
  match createReader env brokers topic minBytes maxBytes readBackoffMin p.id with
  | Except.ok conn => Except.ok { partition := p, conn := conn }
  | Except.error s => Except.error (KafkaErr.external s)

/-- `kafkareader.Reader` (reader.go): the supervisor state. -/
structure Reader (H : Type) where
  handleEvent : H
  topic : String
  brokers : List String
  minBytes : Int
  maxBytes : Int
  readers : List PartitionReaderSt
  partitions : List Partition
  status : Bool
  closing : Bool
  readBackoffMin : Int
deriving DecidableEq

/-- The worker-construction loop of `CreateReader` (reader.go lines 79-90):
one worker per partition, in order, aborting on the first failure. -/
def buildPartitionReaders (env : SeekEnv) (brokers : List String) (topic : String)
    (minBytes maxBytes readBackoffMin : Int) :
    List Partition → Except KafkaErr (List PartitionReaderSt)
  | [] => Except.ok []
  | p :: rest =>
      match NewPartitionReader env brokers topic minBytes maxBytes readBackoffMin p with
      | Except.error e => Except.error e
      | Except.ok pr =>
          match buildPartitionReaders env brokers topic minBytes maxBytes readBackoffMin rest with
          | Except.error e => Except.error e
          | Except.ok prs => Except.ok (pr :: prs)

/-- `CreateReader` (reader.go lines 30-95): validate, apply defaults (mutating
the caller's config — modelled by returning the mutated config as the first
component in every branch past validation), look up partitions, construct one
worker per partition. -/
def CreateReader {H : Type} (lookupEnv : LookupEnv) (seekEnv : SeekEnv)
    (cfg : Config H) : Config H × Except KafkaErr (Reader H) :=
  if cfg.brokers.length = 0 then (cfg, Except.error KafkaErr.noBrokers)
  else if cfg.topic = "" then (cfg, Except.error KafkaErr.noTopic)
  else
    match cfg.handler with
    | none => (cfg, Except.error KafkaErr.noHandler)
    | some handler =>
        let cfg := applyDefaults cfg
        match (LookupPartitions lookupEnv cfg.brokers cfg.topic).1 with
        | Except.error e => (cfg, Except.error e)
        | Except.ok partitions =>
            match buildPartitionReaders seekEnv cfg.brokers cfg.topic cfg.minBytes
                cfg.maxBytes cfg.readBackoffMin partitions with
            | Except.error e => (cfg, Except.error e)
            | Except.ok readers =>
                (cfg, Except.ok
                  { handleEvent := handler, topic := cfg.topic,
                    brokers := cfg.brokers, minBytes := cfg.minBytes,
                    maxBytes := cfg.maxBytes, readers := readers,
                    partitions := partitions, status := false, closing := false,
                    readBackoffMin := cfg.readBackoffMin })

/-- Observable effects along the fetch-failure/recovery path of the worker. -/
inductive WorkerAction where
  | sleepNs (n : Int)
  | logReaderBroken
  | closeConn
  | createAndSeek
  | logRecoverFailed
deriving DecidableEq, Repr

/-- The retry loop of `PartitionReader.recover` (part_000 lines 48-55), run
over the outcomes of successive `createReader` attempts (`true` = success):
each failed attempt logs and sleeps `3*time.Second` before retrying; the loop
exits only on a successful attempt.  Returns the action trace and whether the
loop exited (resumed consuming) within the supplied outcomes. -/
def recoverLoop : List Bool → List WorkerAction × Bool
  | [] => ([], false)
  | ok :: rest =>
      if ok then ([WorkerAction.createAndSeek], true)
      else
        let r := recoverLoop rest
        (WorkerAction.createAndSeek :: WorkerAction.logRecoverFailed ::
            WorkerAction.sleepNs (3 * secondNs) :: r.1, r.2)

/-- `PartitionReader.recover` (part_000 lines 43-56): close the current
connection if one exists, then retry `createReader` until it succeeds. -/
def recover (hasConn : Bool) (attempts : List Bool) : List WorkerAction × Bool :=
  ((if hasConn then [WorkerAction.closeConn] else []) ++ (recoverLoop attempts).1,
    (recoverLoop attempts).2)

/-- The fetch-failure branch of `PartitionReader.Start` (part_000 lines
31-35): sleep `200*time.Millisecond`, log, then `recover()`. -/
def onFetchFailure (hasConn : Bool) (attempts : List Bool) :
    List WorkerAction × Bool :=
  (WorkerAction.sleepNs (200 * millisecondNs) :: WorkerAction.logReaderBroken ::
      (recover hasConn attempts).1,
    (recover hasConn attempts).2)

/-- Step equation: a message at or below `maxOffset` is discarded. -/
theorem workerRun_msg_le (a : Int) (m : Message) (rest : List FetchEvent)
    (h : m.offset ≤ a) :
    workerRun a (FetchEvent.msg m :: rest) = workerRun a rest := by
  simp [workerRun, h]

/-- Step equation: a message above `maxOffset` is delivered and becomes the
new `maxOffset`. -/
theorem workerRun_msg_gt (a : Int) (m : Message) (rest : List FetchEvent)
    (h : a < m.offset) :
    workerRun a (FetchEvent.msg m :: rest) =
      ((workerRun m.offset rest).1, m :: (workerRun m.offset rest).2) := by
  simp [workerRun, not_le.mpr h]

/-- Step equation: a fetch failure leaves `maxOffset` and the delivered list
unchanged; the loop continues. -/
theorem workerRun_failure (a : Int) (s : String) (rest : List FetchEvent) :
    workerRun a (FetchEvent.failure s :: rest) = workerRun a rest := rfl

/-- Every delivered message has offset strictly above the starting
`maxOffset`, and the final `maxOffset` is at least the starting one. -/
theorem workerRun_delivered_gt (a : Int) (events : List FetchEvent) :
    (∀ m ∈ (workerRun a events).2, a < m.offset) ∧ a ≤ (workerRun a events).1 := by
  induction events generalizing a with
  | nil => simp [workerRun]
  | cons e rest ih =>
    cases e with
    | msg m =>
      by_cases h : m.offset ≤ a
      · rw [workerRun_msg_le a m rest h]
        exact ih a
      · push_neg at h
        rw [workerRun_msg_gt a m rest h]
        refine ⟨?_, ?_⟩
        · intro x hx
          rcases List.mem_cons.mp hx with rfl | hx
          · exact h
          · exact lt_trans h ((ih m.offset).1 x hx)
        · exact le_of_lt (lt_of_lt_of_le h (ih m.offset).2)
    | failure s =>
      rw [workerRun_failure]
      exact ih a

/-- The list of delivered offsets is strictly increasing (chained `<`). -/
theorem workerRun_chain (a : Int) (events : List FetchEvent) :
    List.Chain' (fun x y => x < y) ((workerRun a events).2.map Message.offset) := by
  induction events generalizing a with
  | nil => simp [workerRun]
  | cons e rest ih =>
    cases e with
    | msg m =>
      by_cases h : m.offset ≤ a
      · rw [workerRun_msg_le a m rest h]
        exact ih a
      · push_neg at h
        rw [workerRun_msg_gt a m rest h]
        simp only [List.map_cons]
        refine List.chain'_cons'.mpr ⟨?_, ih m.offset⟩
        intro y hy
        rcases List.mem_map.mp (List.mem_of_mem_head? hy) with ⟨x, hx, rfl⟩
        exact (workerRun_delivered_gt m.offset rest).1 x hx
    | failure s =>
      rw [workerRun_failure]
      exact ih a

/-- The loop decomposes over concatenation of fetch sequences: the second
half runs from the `maxOffset` reached by the first half, and the delivered
lists concatenate. -/
theorem workerRun_append (a : Int) (xs ys : List FetchEvent) :
    workerRun a (xs ++ ys) =
      ((workerRun (workerRun a xs).1 ys).1,
        (workerRun a xs).2 ++ (workerRun (workerRun a xs).1 ys).2) := by
  induction xs generalizing a with
  | nil => simp [workerRun]
  | cons e rest ih =>
    cases e with
    | msg m =>
      by_cases h : m.offset ≤ a
      · rw [List.cons_append, workerRun_msg_le a m (rest ++ ys) h,
          workerRun_msg_le a m rest h]
        exact ih a
      · push_neg at h
        rw [List.cons_append, workerRun_msg_gt a m (rest ++ ys) h,
          workerRun_msg_gt a m rest h, ih m.offset]
        rfl
    | failure s =>
      rw [List.cons_append, workerRun_failure, workerRun_failure]
      exact ih a

/-- C1: For every sequence of messages fetched by one partition worker, the
offsets of messages delivered to the handler are strictly increasing; a
fetched message whose offset is ≤ the tracked `maxOffset` is discarded
without invoking the handler (the loop state and delivered list are exactly
those of the remaining events), and otherwise `maxOffset` is updated to that
offset and the handler is invoked with the message. -/
theorem c1_dedup_strictly_increasing (events : List FetchEvent) :
    List.Chain' (fun x y => x < y)
        ((partitionReaderStart events).2.map Message.offset) ∧
    (∀ (a : Int) (m : Message) (rest : List FetchEvent),
        m.offset ≤ a → workerRun a (FetchEvent.msg m :: rest) = workerRun a rest) ∧
    (∀ (a : Int) (m : Message) (rest : List FetchEvent),
        a < m.offset →
          workerRun a (FetchEvent.msg m :: rest) =
            ((workerRun m.offset rest).1, m :: (workerRun m.offset rest).2)) := by
  refine ⟨workerRun_chain 0 events, ?_, ?_⟩
  · intro a m rest h
    simp [workerRun, h]
  · intro a m rest h
    simp [workerRun, not_le.mpr h]

/-- Witness for C1 on the spec's scenario: fetched offsets [5,6,6,7] deliver
offsets [5,6,7], and the two step rules at concrete inputs. -/
theorem c1_witness :
    List.Chain' (fun x y => x < y)
        ((partitionReaderStart
            [FetchEvent.msg ⟨0, 5, "", ""⟩, FetchEvent.msg ⟨0, 6, "", ""⟩,
             FetchEvent.msg ⟨0, 6, "", ""⟩, FetchEvent.msg ⟨0, 7, "", ""⟩]).2.map
          Message.offset) ∧
    workerRun 6 [FetchEvent.msg ⟨0, 6, "", ""⟩] = workerRun 6 [] ∧
    workerRun 6 [FetchEvent.msg ⟨0, 7, "", ""⟩] =
      ((workerRun 7 []).1, ⟨0, 7, "", ""⟩ :: (workerRun 7 []).2) := by
  refine ⟨(c1_dedup_strictly_increasing _).1, ?_, ?_⟩
  · exact (c1_dedup_strictly_increasing []).2.1 6 ⟨0, 6, "", ""⟩ [] (by decide)
  · exact (c1_dedup_strictly_increasing []).2.2 6 ⟨0, 7, "", ""⟩ [] (by decide)

/-- C9: since `maxOffset` is initialized to 0 and a message is delivered only
when its offset strictly exceeds `maxOffset`, a message at offset 0 is never
delivered; every message the handler can observe has offset at least 1. -/
theorem c9_offset_zero_never_delivered (events : List FetchEvent) :
    (∀ m ∈ (partitionReaderStart events).2, 1 ≤ m.offset) ∧
    ∀ m ∈ (partitionReaderStart events).2, m.offset ≠ 0 := by
  have h := (workerRun_delivered_gt 0 events).1
  refine ⟨fun m hm => h m hm, fun m hm => ?_⟩
  have := h m hm
  omega

/-- Witness for C9: on the fetch sequence [offset 0, offset 1] the offset-1
message is delivered, and the theorem applied to its membership yields that
its offset is ≥ 1 and ≠ 0 (the offset-0 message was dropped). -/
theorem c9_witness :
    1 ≤ (Message.mk 0 1 "" "").offset ∧ (Message.mk 0 1 "" "").offset ≠ 0 :=
  ⟨(c9_offset_zero_never_delivered
      [FetchEvent.msg ⟨0, 0, "", ""⟩, FetchEvent.msg ⟨0, 1, "", ""⟩]).1
      ⟨0, 1, "", ""⟩ (by decide),
   (c9_offset_zero_never_delivered
      [FetchEvent.msg ⟨0, 0, "", ""⟩, FetchEvent.msg ⟨0, 1, "", ""⟩]).2
      ⟨0, 1, "", ""⟩ (by decide)⟩

/-- Helper: a recovery in which every supplied `createReader` attempt fails
makes exactly one attempt-log-sleep round per failure and never resumes. -/
theorem recoverLoop_all_fail (k : Nat) :
    recoverLoop (List.replicate k false) =
      ((List.replicate k
          [WorkerAction.createAndSeek, WorkerAction.logRecoverFailed,
            WorkerAction.sleepNs (3 * secondNs)]).flatten, false) := by
  induction k with
  | zero => simp [recoverLoop]
  | succ k ih => simp [recoverLoop, List.replicate_succ, ih]

/-- Helper: a recovery whose first `k` attempts fail and whose next attempt
succeeds performs `k` attempt-log-sleep rounds, one final successful attempt,
and resumes. -/
theorem recoverLoop_succeeds (k : Nat) (rest : List Bool) :
    recoverLoop (List.replicate k false ++ true :: rest) =
      ((List.replicate k
          [WorkerAction.createAndSeek, WorkerAction.logRecoverFailed,
            WorkerAction.sleepNs (3 * secondNs)]).flatten ++
        [WorkerAction.createAndSeek], true) := by
  induction k with
  | zero => simp [recoverLoop]
  | succ k ih => simp [recoverLoop, List.replicate_succ, ih]

/-- C5: on a fetch failure the worker sleeps 200 ms, closes the current
connection if one exists, then retries create-and-seek with a 3-second sleep
after every failure, resuming consumption exactly when an attempt succeeds
(first conjunct); if all attempts fail it never resumes and retries once per
available attempt (second conjunct); and no fetch error is ever surfaced: the
consume loop simply continues after a failure event with its state intact
(third conjunct). -/
theorem c5_recovery_retry (hasConn : Bool) (k : Nat) (restAttempts : List Bool)
    (s : String) (a : Int) (rest : List FetchEvent) :
    onFetchFailure hasConn (List.replicate k false ++ true :: restAttempts) =
      (WorkerAction.sleepNs (200 * millisecondNs) :: WorkerAction.logReaderBroken ::
        ((if hasConn then [WorkerAction.closeConn] else []) ++
          ((List.replicate k
              [WorkerAction.createAndSeek, WorkerAction.logRecoverFailed,
                WorkerAction.sleepNs (3 * secondNs)]).flatten ++
            [WorkerAction.createAndSeek])), true) ∧
    onFetchFailure hasConn (List.replicate k false) =
      (WorkerAction.sleepNs (200 * millisecondNs) :: WorkerAction.logReaderBroken ::
        ((if hasConn then [WorkerAction.closeConn] else []) ++
          (List.replicate k
              [WorkerAction.createAndSeek, WorkerAction.logRecoverFailed,
                WorkerAction.sleepNs (3 * secondNs)]).flatten), false) ∧
    workerRun a (FetchEvent.failure s :: rest) = workerRun a rest := by
  refine ⟨?_, ?_, workerRun_failure a s rest⟩
  · simp [onFetchFailure, recover, recoverLoop_succeeds]
  · simp [onFetchFailure, recover, recoverLoop_all_fail]

/-- C2: a successful `createReader` call seeks the replacement connection to
`kafka.LastOffset`, the broker's-newest-offset sentinel (first conjunct); the
tracked `maxOffset` survives a fetch failure, so the delivered sequence of
the whole run is the pre-failure deliveries followed by the post-failure
deliveries computed from the pre-failure maximum (second conjunct), and every
message delivered after the failure has offset strictly greater than the
pre-failure tracked maximum (third conjunct). -/
theorem c2_reconnect_newest (env : SeekEnv) (brokers : List String)
    (topic : String) (minB maxB backoff pid : Int) (conn : KafkaConn)
    (hc : createReader env brokers topic minB maxB backoff pid = Except.ok conn)
    (s : String) (pre post : List FetchEvent) :
    conn.seekedTo = kafkaLastOffset ∧
    (workerRun 0 (pre ++ FetchEvent.failure s :: post)).2 =
      (workerRun 0 pre).2 ++ (workerRun (workerRun 0 pre).1 post).2 ∧
    ∀ m ∈ (workerRun (workerRun 0 pre).1 post).2,
      (workerRun 0 pre).1 < m.offset := by
  refine ⟨?_, ?_, ?_⟩
  · unfold createReader at hc
    split at hc
    · cases hc
      rfl
    · cases hc
  · rw [workerRun_append 0 pre (FetchEvent.failure s :: post), workerRun_failure]
  · exact fun m hm => (workerRun_delivered_gt (workerRun 0 pre).1 post).1 m hm

/-- Witness for C2: a concrete reconnection.  Before the failure offset 5 is
delivered; after reconnection offsets 3 (≤ 5, dropped) and 9 arrive and only
9 is delivered, strictly above the pre-failure maximum; the replacement
connection was seeked to `kafka.LastOffset`. -/
theorem c2_witness :
    (KafkaConn.mk
        (ReaderConfig.mk ["b1:9092"] "t" 0 512 4194304 100000000)
        kafkaLastOffset).seekedTo = kafkaLastOffset ∧
    (workerRun 0
        ([FetchEvent.msg ⟨0, 5, "", ""⟩] ++ FetchEvent.failure "broken" ::
          [FetchEvent.msg ⟨0, 3, "", ""⟩, FetchEvent.msg ⟨0, 9, "", ""⟩])).2 =
      (workerRun 0 [FetchEvent.msg ⟨0, 5, "", ""⟩]).2 ++
        (workerRun (workerRun 0 [FetchEvent.msg ⟨0, 5, "", ""⟩]).1
          [FetchEvent.msg ⟨0, 3, "", ""⟩, FetchEvent.msg ⟨0, 9, "", ""⟩]).2 ∧
    (workerRun 0 [FetchEvent.msg ⟨0, 5, "", ""⟩]).1 <
      (Message.mk 0 9 "" "").offset := by
  have t := c2_reconnect_newest (fun _ => Except.ok ()) ["b1:9092"] "t"
    512 4194304 100000000 0
    (KafkaConn.mk (ReaderConfig.mk ["b1:9092"] "t" 0 512 4194304 100000000)
      kafkaLastOffset)
    rfl "broken" [FetchEvent.msg ⟨0, 5, "", ""⟩]
    [FetchEvent.msg ⟨0, 3, "", ""⟩, FetchEvent.msg ⟨0, 9, "", ""⟩]
  exact ⟨t.1, t.2.1, t.2.2 ⟨0, 9, "", ""⟩ (by decide)⟩

/-- Helper: fields of `Config` other than the byte thresholds and backoff are
untouched by the defaulting block. -/
theorem applyDefaults_untouched {H : Type} (cfg : Config H) :
    (applyDefaults cfg).brokers = cfg.brokers ∧
    (applyDefaults cfg).topic = cfg.topic ∧
    (applyDefaults cfg).handler = cfg.handler ∧
    (applyDefaults cfg).name = cfg.name := by
  simp only [applyDefaults]
  split_ifs <;> simp

/-- Helper: the aggregated error of a fully failed lookup is always
`nonePartitionFound`; per-address errors never escape. -/
theorem LookupPartitions_error_eq (env : LookupEnv) (topic : String) :
    ∀ (brokers : List String) (e : KafkaErr),
      (LookupPartitions env brokers topic).1 = Except.error e →
      e = KafkaErr.nonePartitionFound := by
  intro brokers
  induction brokers with
  | nil =>
    intro e he
    injection he with h
    exact h.symm
  | cons addr rest ih =>
    intro e he
    simp only [LookupPartitions] at he
    cases hq : lookupPartitions env addr topic with
    | ok ps =>
      rw [hq] at he
      simp at he
    | error s =>
      rw [hq] at he
      exact ih e he

/-- Helper: a failing `NewPartitionReader` reports an external (client
library) error. -/
theorem NewPartitionReader_error_external (env : SeekEnv) (brokers : List String)
    (topic : String) (minB maxB backoff : Int) (p : Partition) (e : KafkaErr)
    (he : NewPartitionReader env brokers topic minB maxB backoff p =
      Except.error e) :
    ∃ s, e = KafkaErr.external s := by
  unfold NewPartitionReader at he
  cases hq : createReader env brokers topic minB maxB backoff p.id with
  | ok conn =>
    rw [hq] at he
    simp at he
  | error s =>
    rw [hq] at he
    simp only [Except.error.injEq] at he
    exact ⟨s, he.symm⟩

/-- Helper: a failing worker-construction loop reports an external error. -/
theorem buildPartitionReaders_error_external (env : SeekEnv)
    (brokers : List String) (topic : String) (minB maxB backoff : Int) :
    ∀ (ps : List Partition) (e : KafkaErr),
      buildPartitionReaders env brokers topic minB maxB backoff ps =
        Except.error e →
      ∃ s, e = KafkaErr.external s := by
  intro ps
  induction ps with
  | nil =>
    intro e he
    simp [buildPartitionReaders] at he
  | cons p rest ih =>
    intro e he
    simp only [buildPartitionReaders] at he
    cases hn : NewPartitionReader env brokers topic minB maxB backoff p with
    | error e2 =>
      rw [hn] at he
      simp only [Except.error.injEq] at he
      exact he ▸ NewPartitionReader_error_external env brokers topic minB maxB
        backoff p e2 hn
    | ok pr =>
      rw [hn] at he
      cases hb : buildPartitionReaders env brokers topic minB maxB backoff rest with
      | error e2 =>
        rw [hb] at he
        simp only [Except.error.injEq] at he
        exact he ▸ ih e2 hb
      | ok prs =>
        rw [hb] at he
        simp at he

/-- C3: construction fails with `ErrNoBrokers` exactly when the broker list
is empty; with a nonempty broker list, with `ErrNoTopic` exactly when the
topic is empty; with both present, with `ErrNoHandler` exactly when the
handler is nil — the checks in that order — and when all three are supplied,
no configuration error is ever returned (any further error is a discovery or
client-library error); the error strings are "no brokers", "no topic",
"no handler". -/
theorem c3_validation_order {H : Type} (lookupEnv : LookupEnv) (seekEnv : SeekEnv)
    (cfg : Config H) :
    (cfg.brokers = [] →
      (CreateReader lookupEnv seekEnv cfg).2 = Except.error KafkaErr.noBrokers) ∧
    (cfg.brokers ≠ [] → cfg.topic = "" →
      (CreateReader lookupEnv seekEnv cfg).2 = Except.error KafkaErr.noTopic) ∧
    (cfg.brokers ≠ [] → cfg.topic ≠ "" → cfg.handler = none →
      (CreateReader lookupEnv seekEnv cfg).2 = Except.error KafkaErr.noHandler) ∧
    (cfg.brokers ≠ [] → cfg.topic ≠ "" → cfg.handler ≠ none →
      ∀ e, (CreateReader lookupEnv seekEnv cfg).2 = Except.error e →
        e.isConfigErr = false) ∧
    KafkaErr.message KafkaErr.noBrokers = "no brokers" ∧
    KafkaErr.message KafkaErr.noTopic = "no topic" ∧
    KafkaErr.message KafkaErr.noHandler = "no handler" := by
  refine ⟨?_, ?_, ?_, ?_, rfl, rfl, rfl⟩
  · intro hb
    simp [CreateReader, hb]
  · intro hb ht
    have hlen : ¬ cfg.brokers.length = 0 := by
      simpa [List.length_eq_zero] using hb
    simp [CreateReader, hlen, ht]
  · intro hb ht hh
    have hlen : ¬ cfg.brokers.length = 0 := by
      simpa [List.length_eq_zero] using hb
    simp [CreateReader, hlen, ht, hh]
  · intro hb ht hh e he
    have hlen : ¬ cfg.brokers.length = 0 := by
      simpa [List.length_eq_zero] using hb
    rcases hv : cfg.handler with _ | v
    · exact absurd hv hh
    rcases hlp : (LookupPartitions lookupEnv (applyDefaults cfg).brokers
        (applyDefaults cfg).topic).1 with e2 | ps
    · simp only [CreateReader, if_neg hlen, if_neg ht, hv, hlp,
        Except.error.injEq] at he
      have h2 := LookupPartitions_error_eq lookupEnv (applyDefaults cfg).topic
        (applyDefaults cfg).brokers e2 hlp
      rw [← he, h2]
      rfl
    · rcases hbd : buildPartitionReaders seekEnv (applyDefaults cfg).brokers
          (applyDefaults cfg).topic (applyDefaults cfg).minBytes
          (applyDefaults cfg).maxBytes (applyDefaults cfg).readBackoffMin ps
        with e2 | prs
      · simp only [CreateReader, if_neg hlen, if_neg ht, hv, hlp, hbd,
          Except.error.injEq] at he
        rcases buildPartitionReaders_error_external seekEnv _ _ _ _ _ ps e2 hbd
          with ⟨s, rfl⟩
        rw [← he]
        rfl
      · simp only [CreateReader, if_neg hlen, if_neg ht, hv, hlp, hbd] at he
        exact Except.noConfusion he

/-- Witness for C3: the three validation errors at concrete configurations,
in order, and a non-configuration error once all three fields are supplied. -/
theorem c3_witness :
    (CreateReader (fun _ _ _ _ => Except.error "down") (fun _ => Except.ok ())
        (Config.mk "" [] "" 0 0 0 (none : Option Unit))).2 =
      Except.error KafkaErr.noBrokers ∧
    (CreateReader (fun _ _ _ _ => Except.error "down") (fun _ => Except.ok ())
        (Config.mk "" ["b1:9092"] "" 0 0 0 (none : Option Unit))).2 =
      Except.error KafkaErr.noTopic ∧
    (CreateReader (fun _ _ _ _ => Except.error "down") (fun _ => Except.ok ())
        (Config.mk "" ["b1:9092"] "t" 0 0 0 (none : Option Unit))).2 =
      Except.error KafkaErr.noHandler ∧
    KafkaErr.isConfigErr KafkaErr.nonePartitionFound = false := by
  refine ⟨?_, ?_, ?_, ?_⟩
  · exact (c3_validation_order _ _ _).1 rfl
  · exact (c3_validation_order _ _ _).2.1 (by decide) rfl
  · exact (c3_validation_order _ _ _).2.2.1 (by decide) (by decide) rfl
  · exact (c3_validation_order (fun _ _ _ _ => Except.error "down")
      (fun _ => Except.ok ())
      (Config.mk "" ["b1:9092"] "t" 0 0 0 (some ()))).2.2.2.1
      (by decide) (by decide) (by decide) KafkaErr.nonePartitionFound rfl

/-- Helper: when every broker address fails the per-address query, the lookup
queries all of them in order and returns the single aggregate error. -/
theorem LookupPartitions_all_fail (env : LookupEnv) (topic : String) :
    ∀ brokers : List String,
      (∀ a ∈ brokers, ∃ s, lookupPartitions env a topic = Except.error s) →
      LookupPartitions env brokers topic =
        (Except.error KafkaErr.nonePartitionFound, brokers) := by
  intro brokers
  induction brokers with
  | nil =>
    intro _
    rfl
  | cons addr rest ih =>
    intro h
    rcases h addr (List.mem_cons_self addr rest) with ⟨s, hs⟩
    have hrest := ih fun a ha => h a (List.mem_cons_of_mem addr ha)
    simp [LookupPartitions, hs, hrest]

/-- Helper: with leading failures followed by a success, the lookup returns
the first successful address's partition list, having queried exactly the
failing prefix and that address — never any later address. -/
theorem LookupPartitions_first_success (env : LookupEnv) (topic : String)
    (addr : String) (ps : List Partition)
    (ha : lookupPartitions env addr topic = Except.ok ps) :
    ∀ pre post : List String,
      (∀ a ∈ pre, ∃ s, lookupPartitions env a topic = Except.error s) →
      LookupPartitions env (pre ++ addr :: post) topic =
        (Except.ok ps, pre ++ [addr]) := by
  intro pre
  induction pre with
  | nil =>
    intro post _
    simp [LookupPartitions, ha]
  | cons b rest ih =>
    intro post h
    rcases h b (List.mem_cons_self b rest) with ⟨s, hs⟩
    have hrest := ih post fun a hx => h a (List.mem_cons_of_mem b hx)
    simp [LookupPartitions, hs, hrest]

/-- C4: partition lookup tries the broker addresses in the order given, each
single address queried over "tcp" with a 3-second timeout; on the first
address that answers it returns that address's partition list at once, having
queried only the failing prefix and that address (never any later one); if
every address fails it returns `nil` with the single error
"none partition found" instead of the per-address errors. -/
theorem c4_lookup_first_success (env : LookupEnv) (topic : String)
    (pre post : List String) (addr : String) (ps : List Partition)
    (hpre : ∀ a ∈ pre, ∃ s, lookupPartitions env a topic = Except.error s)
    (ha : lookupPartitions env addr topic = Except.ok ps) :
    LookupPartitions env (pre ++ addr :: post) topic =
      (Except.ok ps, pre ++ [addr]) ∧
    (∀ brokers : List String,
        (∀ a ∈ brokers, ∃ s, lookupPartitions env a topic = Except.error s) →
        LookupPartitions env brokers topic =
          (Except.error KafkaErr.nonePartitionFound, brokers)) ∧
    lookupPartitions env addr topic = env "tcp" addr topic (3 * secondNs) ∧
    KafkaErr.message KafkaErr.nonePartitionFound = "none partition found" :=
  ⟨LookupPartitions_first_success env topic addr ps ha pre post hpre,
    fun brokers h => LookupPartitions_all_fail env topic brokers h,
    rfl, rfl⟩

/-- Witness for C4: brokers [A, B, C] where A fails and B answers with one
partition: lookup returns B's list having queried only [A, B]; and with
every address failing it returns the aggregate error. -/
theorem c4_witness :
    LookupPartitions
        (fun _ a _ _ =>
          if a = "B" then Except.ok [Partition.mk "t" 0] else Except.error "down")
        (["A"] ++ "B" :: ["C"]) "t" =
      (Except.ok [Partition.mk "t" 0], ["A"] ++ ["B"]) ∧
    (∀ brokers : List String,
        (∀ a ∈ brokers,
          ∃ s,
            lookupPartitions
              (fun _ a _ _ =>
                if a = "B" then Except.ok [Partition.mk "t" 0]
                else Except.error "down")
              a "t" = Except.error s) →
        LookupPartitions
            (fun _ a _ _ =>
              if a = "B" then Except.ok [Partition.mk "t" 0]
              else Except.error "down")
            brokers "t" =
          (Except.error KafkaErr.nonePartitionFound, brokers)) ∧
    lookupPartitions
        (fun _ a _ _ =>
          if a = "B" then Except.ok [Partition.mk "t" 0] else Except.error "down")
        "A" "t" =
      (fun _ a _ _ =>
          if a = "B" then Except.ok [Partition.mk "t" 0] else Except.error "down")
        "tcp" "A" "t" (3 * secondNs) ∧
    KafkaErr.message KafkaErr.nonePartitionFound = "none partition found" := by
  have t := c4_lookup_first_success
    (fun _ a _ _ =>
      if a = "B" then Except.ok [Partition.mk "t" 0] else Except.error "down")
    "t" ["A"] ["C"] "B" [Partition.mk "t" 0]
    (by
      intro a hx
      rcases List.mem_singleton.mp hx with rfl
      exact ⟨"down", rfl⟩)
    rfl
  exact ⟨t.1, t.2.1, rfl, rfl⟩

/-- Helper: the byte-threshold and backoff fields of a successfully
constructed `Reader` are exactly the defaulted configuration's. -/
theorem CreateReader_ok_eq {H : Type} (lookupEnv : LookupEnv) (seekEnv : SeekEnv)
    (cfg : Config H) (r : Reader H)
    (hr : (CreateReader lookupEnv seekEnv cfg).2 = Except.ok r) :
    r.minBytes = (applyDefaults cfg).minBytes ∧
    r.maxBytes = (applyDefaults cfg).maxBytes ∧
    r.readBackoffMin = (applyDefaults cfg).readBackoffMin := by
  by_cases hlen : cfg.brokers.length = 0
  · simp [CreateReader, hlen] at hr
  by_cases ht : cfg.topic = ""
  · simp [CreateReader, hlen, ht] at hr
  rcases hv : cfg.handler with _ | v
  · simp [CreateReader, hlen, ht, hv] at hr
  rcases hlp : (LookupPartitions lookupEnv (applyDefaults cfg).brokers
      (applyDefaults cfg).topic).1 with e2 | ps
  · simp [CreateReader, hlen, ht, hv, hlp] at hr
  rcases hbd : buildPartitionReaders seekEnv (applyDefaults cfg).brokers
      (applyDefaults cfg).topic (applyDefaults cfg).minBytes
      (applyDefaults cfg).maxBytes (applyDefaults cfg).readBackoffMin ps
    with e2 | prs
  · simp [CreateReader, hlen, ht, hv, hlp, hbd] at hr
  · simp only [CreateReader, if_neg hlen, if_neg ht, hv, hlp, hbd,
      Except.ok.injEq] at hr
    subst hr
    exact ⟨rfl, rfl, rfl⟩

/-- Helper: closed form of the three defaulted fields. -/
theorem applyDefaults_spec {H : Type} (cfg : Config H) :
    (applyDefaults cfg).minBytes =
      (if cfg.minBytes ≤ 0 then MINBYTES else cfg.minBytes) ∧
    (applyDefaults cfg).maxBytes =
      (if (if cfg.maxBytes ≤ 0 then MAXBYTES else cfg.maxBytes) <
          (if cfg.minBytes ≤ 0 then MINBYTES else cfg.minBytes) then
        (if cfg.minBytes ≤ 0 then MINBYTES else cfg.minBytes) + 64
      else (if cfg.maxBytes ≤ 0 then MAXBYTES else cfg.maxBytes)) ∧
    (applyDefaults cfg).readBackoffMin =
      (if cfg.readBackoffMin ≤ READBACKOFFMIN then READBACKOFFMIN
       else cfg.readBackoffMin) := by
  by_cases h1 : cfg.minBytes ≤ 0 <;> by_cases h2 : cfg.maxBytes ≤ 0 <;>
    simp [applyDefaults, h1, h2] <;> split_ifs <;> simp_all

/-- Helper: after defaulting, the minimum never exceeds the maximum. -/
theorem applyDefaults_min_le_max {H : Type} (cfg : Config H) :
    (applyDefaults cfg).minBytes ≤ (applyDefaults cfg).maxBytes := by
  rcases applyDefaults_spec cfg with ⟨h1, h2, _⟩
  rw [h1, h2]
  simp only [MINBYTES, MAXBYTES]
  split_ifs <;> omega

/-- C7: after a successful construction the effective max fetch bytes is at
least the effective min fetch bytes; a non-positive min becomes `MINBYTES`
(512), a non-positive max becomes `MAXBYTES` (4194304 = 4 MiB), and a max
still below the min after defaulting is raised to min + 64. -/
theorem c7_bytes_clamped {H : Type} (lookupEnv : LookupEnv) (seekEnv : SeekEnv)
    (cfg : Config H) (r : Reader H)
    (hr : (CreateReader lookupEnv seekEnv cfg).2 = Except.ok r) :
    r.minBytes ≤ r.maxBytes ∧
    r.minBytes = (if cfg.minBytes ≤ 0 then MINBYTES else cfg.minBytes) ∧
    r.maxBytes =
      (if (if cfg.maxBytes ≤ 0 then MAXBYTES else cfg.maxBytes) <
          (if cfg.minBytes ≤ 0 then MINBYTES else cfg.minBytes) then
        (if cfg.minBytes ≤ 0 then MINBYTES else cfg.minBytes) + 64
      else (if cfg.maxBytes ≤ 0 then MAXBYTES else cfg.maxBytes)) ∧
    MINBYTES = 512 ∧ MAXBYTES = 4194304 := by
  rcases CreateReader_ok_eq lookupEnv seekEnv cfg r hr with ⟨hm, hx, _⟩
  rcases applyDefaults_spec cfg with ⟨s1, s2, _⟩
  refine ⟨?_, ?_, ?_, rfl, by decide⟩
  · rw [hm, hx]
    exact applyDefaults_min_le_max cfg
  · rw [hm, s1]
  · rw [hx, s2]

/-- Witness for C7: supplied min -1 and max 100 become 512 and 576 = 512 + 64
on a successful construction, and 512 ≤ 576. -/
theorem c7_witness :
    (512 : Int) ≤ 576 ∧ (512 : Int) = MINBYTES ∧ (576 : Int) = MINBYTES + 64 := by
  have t := c7_bytes_clamped (fun _ _ _ _ => Except.ok []) (fun _ => Except.ok ())
    (Config.mk "" ["b"] "t" (-1) 100 0 (some () : Option Unit))
    (Reader.mk () "t" ["b"] 512 576 [] [] false false READBACKOFFMIN) (by rfl)
  exact ⟨t.1, t.2.1, t.2.2.1⟩

/-- C8 amended: a successful construction preserves the supplied minimum
reconnect backoff only when it exceeds `READBACKOFFMIN` (100 ms); any
supplied backoff less than or equal to 100 ms — including positive values
below 100 ms — is set to 100 ms. -/
theorem c8_backoff_clamped {H : Type} (lookupEnv : LookupEnv) (seekEnv : SeekEnv)
    (cfg : Config H) (r : Reader H)
    (hr : (CreateReader lookupEnv seekEnv cfg).2 = Except.ok r) :
    (READBACKOFFMIN < cfg.readBackoffMin →
      r.readBackoffMin = cfg.readBackoffMin) ∧
    (cfg.readBackoffMin ≤ READBACKOFFMIN →
      r.readBackoffMin = READBACKOFFMIN) := by
  rcases CreateReader_ok_eq lookupEnv seekEnv cfg r hr with ⟨_, _, hbk⟩
  rcases applyDefaults_spec cfg with ⟨_, _, s3⟩
  constructor
  · intro h
    rw [hbk, s3, if_neg (not_le.mpr h)]
  · intro h
    rw [hbk, s3, if_pos h]

/-- Counterexample to C8 as stated: a configuration with the positive
backoff 50 ms constructs successfully, yet the resulting reader's backoff is
`READBACKOFFMIN` (100 ms), not the supplied value. -/
theorem c8_counterexample :
    (0 : Int) < 50 * millisecondNs ∧
    ((CreateReader (fun _ _ _ _ => Except.ok []) (fun _ => Except.ok ())
        (Config.mk "" ["b"] "t" 512 4194304 (50 * millisecondNs)
          (some () : Option Unit))).2.toOption.map Reader.readBackoffMin) =
      some READBACKOFFMIN ∧
    READBACKOFFMIN ≠ 50 * millisecondNs := by
  refine ⟨by decide, by rfl, by decide⟩

/-- Witness for C8 (amended): a supplied backoff of 200 ms, which exceeds
100 ms, survives a successful construction unchanged. -/
theorem c8_witness :
    (Reader.mk () "t" ["b"] 512 4194304 [] [] false false
        (200 * millisecondNs) : Reader Unit).readBackoffMin =
      200 * millisecondNs := by
  have t := c8_backoff_clamped (fun _ _ _ _ => Except.ok [])
    (fun _ => Except.ok ())
    (Config.mk "" ["b"] "t" 512 4194304 (200 * millisecondNs) (some ()))
    (Reader.mk () "t" ["b"] 512 4194304 [] [] false false
      (200 * millisecondNs)) (by rfl)
  exact t.1 (by decide)

/-- Helper: when the initial connection of every worker succeeds, the loop
constructs exactly one worker per partition, in order. -/
theorem buildPartitionReaders_all_ok (env : SeekEnv) (brokers : List String)
    (topic : String) (minB maxB backoff : Int) :
    ∀ ps : List Partition, (∀ p ∈ ps, env p.id = Except.ok ()) →
      buildPartitionReaders env brokers topic minB maxB backoff ps =
        Except.ok (ps.map fun p =>
          PartitionReaderSt.mk p
            (KafkaConn.mk (ReaderConfig.mk brokers topic p.id minB maxB backoff)
              kafkaLastOffset)) := by
  intro ps
  induction ps with
  | nil =>
    intro _
    rfl
  | cons p rest ih =>
    intro h
    have hp := h p (List.mem_cons_self p rest)
    have hrest := ih fun q hq => h q (List.mem_cons_of_mem p hq)
    simp [buildPartitionReaders, NewPartitionReader, createReader, hp, hrest]

/-- Helper: the first worker whose initial connection fails aborts the loop
with that worker's error. -/
theorem buildPartitionReaders_first_fail (env : SeekEnv) (brokers : List String)
    (topic : String) (minB maxB backoff : Int) (p : Partition) (s : String)
    (hp : env p.id = Except.error s) :
    ∀ qre qost : List Partition,
      (∀ q ∈ qre, env q.id = Except.ok ()) →
      buildPartitionReaders env brokers topic minB maxB backoff
          (qre ++ p :: qost) =
        Except.error (KafkaErr.external s) := by
  intro qre
  induction qre with
  | nil =>
    intro qost _
    simp [buildPartitionReaders, NewPartitionReader, createReader, hp]
  | cons q rest ih =>
    intro qost h
    have hq := h q (List.mem_cons_self q rest)
    have hrest := ih qost fun x hx => h x (List.mem_cons_of_mem q hx)
    simp [buildPartitionReaders, NewPartitionReader, createReader, hq, hrest]


/-- Helper: two configurations with equal fields are equal. -/
theorem configFieldsEq {H : Type} {a b : Config H} (h1 : a.name = b.name)
    (h2 : a.brokers = b.brokers) (h3 : a.topic = b.topic)
    (h4 : a.minBytes = b.minBytes) (h5 : a.maxBytes = b.maxBytes)
    (h6 : a.readBackoffMin = b.readBackoffMin) (h7 : a.handler = b.handler) :
    a = b := by
  cases a
  cases b
  simp_all

/-- C6: construction is all-or-nothing.  If the partition lookup fails,
`CreateReader` returns exactly that error and no reader (first conjunct); on
a successful lookup with every worker's initial connection succeeding, the
result holds one worker per resolved partition in the order returned (second
conjunct); and if some worker's initial connection fails, `CreateReader`
returns that worker's error instead of any worker set (third conjunct). -/
theorem c6_all_or_nothing {H : Type} (lookupEnv : LookupEnv) (seekEnv : SeekEnv)
    (cfg : Config H) (hb : cfg.brokers ≠ []) (ht : cfg.topic ≠ "")
    (hh : cfg.handler ≠ none) :
    (∀ e, (LookupPartitions lookupEnv cfg.brokers cfg.topic).1 = Except.error e →
        (CreateReader lookupEnv seekEnv cfg).2 = Except.error e) ∧
    (∀ ps, (LookupPartitions lookupEnv cfg.brokers cfg.topic).1 = Except.ok ps →
        (∀ p ∈ ps, seekEnv p.id = Except.ok ()) →
        ∃ r, (CreateReader lookupEnv seekEnv cfg).2 = Except.ok r ∧
          r.readers.map PartitionReaderSt.partition = ps ∧ r.partitions = ps) ∧
    (∀ ps qre p qost s,
        (LookupPartitions lookupEnv cfg.brokers cfg.topic).1 = Except.ok ps →
        ps = qre ++ p :: qost →
        (∀ q ∈ qre, seekEnv q.id = Except.ok ()) →
        seekEnv p.id = Except.error s →
        (CreateReader lookupEnv seekEnv cfg).2 =
          Except.error (KafkaErr.external s)) := by
  obtain ⟨hbr, htp, -, -⟩ := applyDefaults_untouched cfg
  rcases hv : cfg.handler with _ | v
  · exact absurd hv hh
  refine ⟨?_, ?_, ?_⟩
  · intro e hlp
    have hlp2 : (LookupPartitions lookupEnv (applyDefaults cfg).brokers
        (applyDefaults cfg).topic).1 = Except.error e := by
      rw [hbr, htp]
      exact hlp
    simp [CreateReader, hb, ht, hv, hlp2]
  · intro ps hlp hseek
    have hlp2 : (LookupPartitions lookupEnv (applyDefaults cfg).brokers
        (applyDefaults cfg).topic).1 = Except.ok ps := by
      rw [hbr, htp]
      exact hlp
    have hbd := buildPartitionReaders_all_ok seekEnv (applyDefaults cfg).brokers
      (applyDefaults cfg).topic (applyDefaults cfg).minBytes
      (applyDefaults cfg).maxBytes (applyDefaults cfg).readBackoffMin ps hseek
    refine ⟨Reader.mk v (applyDefaults cfg).topic (applyDefaults cfg).brokers
        (applyDefaults cfg).minBytes (applyDefaults cfg).maxBytes
        (ps.map fun p => PartitionReaderSt.mk p
          (KafkaConn.mk
            (ReaderConfig.mk (applyDefaults cfg).brokers
              (applyDefaults cfg).topic p.id (applyDefaults cfg).minBytes
              (applyDefaults cfg).maxBytes (applyDefaults cfg).readBackoffMin)
            kafkaLastOffset))
        ps false false (applyDefaults cfg).readBackoffMin, ?_, ?_, rfl⟩
    · simp [CreateReader, hb, ht, hv, hlp2, hbd]
    · simp only [List.map_map]
      exact List.map_id ps
  · intro ps qre p qost s hlp hps hqre hp
    subst hps
    have hlp2 : (LookupPartitions lookupEnv (applyDefaults cfg).brokers
        (applyDefaults cfg).topic).1 = Except.ok (qre ++ p :: qost) := by
      rw [hbr, htp]
      exact hlp
    have hbd := buildPartitionReaders_first_fail seekEnv
      (applyDefaults cfg).brokers (applyDefaults cfg).topic
      (applyDefaults cfg).minBytes (applyDefaults cfg).maxBytes
      (applyDefaults cfg).readBackoffMin p s hp qre qost hqre
    simp [CreateReader, hb, ht, hv, hlp2, hbd]

/-- Witness for C6: a failed lookup propagates `nonePartitionFound` with no
reader; a failed seek on partition 1 aborts with that external error; with
both partitions seeking fine, the reader holds workers for partitions 0 and
1 in order. -/
theorem c6_witness :
    (CreateReader (fun _ _ _ _ => Except.error "down") (fun _ => Except.ok ())
        (Config.mk "" ["b"] "t" 512 4194304 (100 * millisecondNs)
          (some () : Option Unit))).2 =
      Except.error KafkaErr.nonePartitionFound ∧
    (CreateReader
        (fun _ _ _ _ => Except.ok [Partition.mk "t" 0, Partition.mk "t" 1])
        (fun pid => if pid = 1 then Except.error "seek broke" else Except.ok ())
        (Config.mk "" ["b"] "t" 512 4194304 (100 * millisecondNs)
          (some () : Option Unit))).2 =
      Except.error (KafkaErr.external "seek broke") ∧
    ((CreateReader
        (fun _ _ _ _ => Except.ok [Partition.mk "t" 0, Partition.mk "t" 1])
        (fun _ => Except.ok ())
        (Config.mk "" ["b"] "t" 512 4194304 (100 * millisecondNs)
          (some () : Option Unit))).2.toOption.map
      fun r => r.readers.map PartitionReaderSt.partition) =
      some [Partition.mk "t" 0, Partition.mk "t" 1] := by
  refine ⟨?_, ?_, ?_⟩
  · exact (c6_all_or_nothing (fun _ _ _ _ => Except.error "down")
      (fun _ => Except.ok ())
      (Config.mk "" ["b"] "t" 512 4194304 (100 * millisecondNs) (some ()))
      (by decide) (by decide) (by decide)).1
      KafkaErr.nonePartitionFound (by rfl)
  · exact (c6_all_or_nothing
      (fun _ _ _ _ => Except.ok [Partition.mk "t" 0, Partition.mk "t" 1])
      (fun pid => if pid = 1 then Except.error "seek broke" else Except.ok ())
      (Config.mk "" ["b"] "t" 512 4194304 (100 * millisecondNs) (some ()))
      (by decide) (by decide) (by decide)).2.2
      [Partition.mk "t" 0, Partition.mk "t" 1] [Partition.mk "t" 0]
      (Partition.mk "t" 1) [] "seek broke" (by rfl) rfl
      (by
        intro q hq
        rcases List.mem_singleton.mp hq with rfl
        rfl)
      (by rfl)
  · obtain ⟨r, hr, hmap, -⟩ :=
      (c6_all_or_nothing
        (fun _ _ _ _ => Except.ok [Partition.mk "t" 0, Partition.mk "t" 1])
        (fun _ => Except.ok ())
        (Config.mk "" ["b"] "t" 512 4194304 (100 * millisecondNs) (some ()))
        (by decide) (by decide) (by decide)).2.1
        [Partition.mk "t" 0, Partition.mk "t" 1] (by rfl)
        (by
          intro p hp
          rfl)
    rw [hr]
    simp only [Except.toOption, Option.map_some', Option.some.injEq]
    exact hmap

/-- C10: `CreateReader` mutates the caller's `Config`: past validation the
returned (caller-visible) config equals the defaulted config whether the call
then fails or succeeds (first conjunct), and a negative byte threshold is
treated exactly like an unset (zero) one (second and third conjuncts). -/
theorem c10_config_mutation {H : Type} (lookupEnv : LookupEnv) (seekEnv : SeekEnv)
    (cfg : Config H) (hb : cfg.brokers ≠ []) (ht : cfg.topic ≠ "")
    (hh : cfg.handler ≠ none) :
    (CreateReader lookupEnv seekEnv cfg).1 = applyDefaults cfg ∧
    (cfg.minBytes < 0 →
      applyDefaults cfg = applyDefaults { cfg with minBytes := 0 }) ∧
    (cfg.maxBytes < 0 →
      applyDefaults cfg = applyDefaults { cfg with maxBytes := 0 }) := by
  refine ⟨?_, ?_, ?_⟩
  · rcases hv : cfg.handler with _ | v
    · exact absurd hv hh
    rcases hlp : (LookupPartitions lookupEnv (applyDefaults cfg).brokers
        (applyDefaults cfg).topic).1 with e2 | ps
    · simp [CreateReader, hb, ht, hv, hlp]
    · rcases hbd : buildPartitionReaders seekEnv (applyDefaults cfg).brokers
          (applyDefaults cfg).topic (applyDefaults cfg).minBytes
          (applyDefaults cfg).maxBytes (applyDefaults cfg).readBackoffMin ps
        with e2 | prs
      · simp [CreateReader, hb, ht, hv, hlp, hbd]
      · simp [CreateReader, hb, ht, hv, hlp, hbd]
  · intro h
    have h0 : cfg.minBytes ≤ 0 := le_of_lt h
    apply configFieldsEq
    · exact ((applyDefaults_untouched cfg).2.2.2).trans
        ((applyDefaults_untouched ({ cfg with minBytes := 0 } : Config H)).2.2.2).symm
    · exact ((applyDefaults_untouched cfg).1).trans
        ((applyDefaults_untouched ({ cfg with minBytes := 0 } : Config H)).1).symm
    · exact ((applyDefaults_untouched cfg).2.1).trans
        ((applyDefaults_untouched ({ cfg with minBytes := 0 } : Config H)).2.1).symm
    · rw [(applyDefaults_spec cfg).1,
        (applyDefaults_spec ({ cfg with minBytes := 0 } : Config H)).1]
      simp [h0]
    · rw [(applyDefaults_spec cfg).2.1,
        (applyDefaults_spec ({ cfg with minBytes := 0 } : Config H)).2.1]
      simp [h0]
    · rw [(applyDefaults_spec cfg).2.2,
        (applyDefaults_spec ({ cfg with minBytes := 0 } : Config H)).2.2]
    · exact ((applyDefaults_untouched cfg).2.2.1).trans
        ((applyDefaults_untouched ({ cfg with minBytes := 0 } : Config H)).2.2.1).symm
  · intro h
    have h0 : cfg.maxBytes ≤ 0 := le_of_lt h
    apply configFieldsEq
    · exact ((applyDefaults_untouched cfg).2.2.2).trans
        ((applyDefaults_untouched ({ cfg with maxBytes := 0 } : Config H)).2.2.2).symm
    · exact ((applyDefaults_untouched cfg).1).trans
        ((applyDefaults_untouched ({ cfg with maxBytes := 0 } : Config H)).1).symm
    · exact ((applyDefaults_untouched cfg).2.1).trans
        ((applyDefaults_untouched ({ cfg with maxBytes := 0 } : Config H)).2.1).symm
    · rw [(applyDefaults_spec cfg).1,
        (applyDefaults_spec ({ cfg with maxBytes := 0 } : Config H)).1]
    · rw [(applyDefaults_spec cfg).2.1,
        (applyDefaults_spec ({ cfg with maxBytes := 0 } : Config H)).2.1]
      simp [h0]
    · rw [(applyDefaults_spec cfg).2.2,
        (applyDefaults_spec ({ cfg with maxBytes := 0 } : Config H)).2.2]
    · exact ((applyDefaults_untouched cfg).2.2.1).trans
        ((applyDefaults_untouched ({ cfg with maxBytes := 0 } : Config H)).2.2.1).symm

/-- Witness for C10: with min -7 and max -3 and a failing lookup, the caller
still sees the defaulted config, and the negative thresholds behave exactly
like zero ones. -/
theorem c10_witness :
    (CreateReader (fun _ _ _ _ => Except.error "down") (fun _ => Except.ok ())
        (Config.mk "" ["b"] "t" (-7) (-3) 0 (some () : Option Unit))).1 =
      applyDefaults (Config.mk "" ["b"] "t" (-7) (-3) 0 (some ())) ∧
    applyDefaults (Config.mk "" ["b"] "t" (-7) (-3) 0 (some () : Option Unit)) =
      applyDefaults (Config.mk "" ["b"] "t" 0 (-3) 0 (some ())) ∧
    applyDefaults (Config.mk "" ["b"] "t" (-7) (-3) 0 (some () : Option Unit)) =
      applyDefaults (Config.mk "" ["b"] "t" (-7) 0 0 (some ())) := by
  have t := c10_config_mutation (fun _ _ _ _ => Except.error "down")
    (fun _ => Except.ok ())
    (Config.mk "" ["b"] "t" (-7) (-3) 0 (some () : Option Unit))
    (by decide) (by decide) (by decide)
  exact ⟨t.1, t.2.1 (by decide), t.2.2 (by decide)⟩
